import Mathlib

/-
  Verification development for the codeRunnerInWeb execution-coordination and
  security-layering subsystem.

  The definitions below are a shallow embedding of the TypeScript sources:
  * `src/features/code-runner/security/code-analysis.ts`   (CodeAnalysisLayer)
  * `src/features/code-runner/security/runtime-monitoring.ts` (RuntimeMonitoringLayer)
  * `src/features/code-runner/security/security-manager.ts` (SecurityManager)
  * `src/features/code-runner/services/python-sandbox.ts`  (PythonSandboxManager)
  * the python worker (`python-worker.ts`)
  * the simple sandbox dispatcher (`SimpleSandboxManager`)

  Conventions of the embedding:
  * source text is a `List Char` (the characters of the JS string);
  * JS numbers used for confidence values are embedded as `ℚ` (the arithmetic
    involved is exact at every input reachable here);
  * `Date.now()` / `performance.now()` readings and random id strings are
    threaded as explicit parameters;
  * a JS `throw` is an `Except.error` carrying the message string;
  * the Zustand store is a passive record (outputs list + execution state)
    threaded through the functions that mutate it.
-/

namespace CodeRunner

/-! ## Severity / risk taxonomy (security/types.ts) -/

inductive Severity
  | low
  | medium
  | high
  | critical
deriving DecidableEq, Repr

inductive RiskLevel
  | low
  | medium
  | high
  | critical
deriving DecidableEq, Repr

/-- Order `low < medium < high < critical` used to compare risk levels. -/
def riskOrd : RiskLevel → Nat
  | RiskLevel.low => 0
  | RiskLevel.medium => 1
  | RiskLevel.high => 2
  | RiskLevel.critical => 3

inductive IssueType
  | dangerous_api
  | suspicious_pattern
  | resource_abuse
  | injection_risk
deriving DecidableEq, Repr

/-- `SecurityIssue` of security/types.ts. -/
structure SecurityIssue where
  type : IssueType
  message : String
  line : Option Nat
  severity : Severity
  suggestion : Option String
deriving DecidableEq, Repr

/-! ## Character classes used by the embedded regexes -/

/-- JS `\s` restricted to the ASCII whitespace characters. -/
def isSpaceChar (c : Char) : Bool :=
  c = ' ' || c = '\t' || c = '\n' || c = '\x0d' || c = '\x0b' || c = '\x0c'

/-- JS `\w` = `[A-Za-z0-9_]`. -/
def isWordChar (c : Char) : Bool :=
  (('a' ≤ c && c ≤ 'z') || ('A' ≤ c && c ≤ 'Z') || ('0' ≤ c && c ≤ '9') || c = '_')

/-- The quote characters of `['"\x60]` character classes. -/
def isQuoteChar (c : Char) : Bool :=
  c = '\'' || c = '"' || c = '\x60'

/-- Consume a literal; return the rest of the input on success. -/
def matchLit : List Char → List Char → Option (List Char)
  | s, [] => some s
  | [], _ :: _ => none
  | c :: s, p :: ps => if c = p then matchLit s ps else none

/-- Consume `\s*` (greedy). -/
def skipSpaces : List Char → List Char
  | [] => []
  | c :: s => if isSpaceChar c then skipSpaces s else c :: s

/-- Consume `\s+` (greedy); fails when the first character is not whitespace. -/
def skipSpaces1 : List Char → Option (List Char)
  | [] => none
  | c :: s => if isSpaceChar c then some (skipSpaces s) else none

/-- Consume `\w+` (greedy); fails when the first character is not a word char. -/
def skipWord1 : List Char → Option (List Char)
  | [] => none
  | c :: s =>
    if isWordChar c then
      some (s.dropWhile (fun d => isWordChar d))
    else none

/-! ## The dangerous-pattern regexes of CodeAnalysisLayer, as matchers.

Each `match...At` function decides whether the corresponding regex matches at
the start of the given suffix of the code. The regexes involved are simple
enough that greedy scanning is complete (the relevant character classes are
disjoint from the characters that follow them), except where noted. -/

/-- `lit` followed by `\s*` followed by `(` — used for `eval\s*\(`,
`Function\s*\(`, `fetch\s*\(` and `require\s*\(`. -/
def litParenAt (lit : List Char) (s : List Char) : Bool :=
  match matchLit s lit with
  | some r =>
    match skipSpaces r with
    | '(' :: _ => true
    | _ => false
  | none => false

/-- A plain substring occurrence at this position — used for `document\.`,
`window\.`, `localStorage`, `sessionStorage`, `XMLHttpRequest`. -/
def litAt (lit : List Char) (s : List Char) : Bool :=
  (matchLit s lit).isSome

/-- `lit` `\s*` `(` `\s*` `['"\x60]` — used for the string-argument forms of
`setTimeout` and `setInterval`. -/
def litParenQuoteAt (lit : List Char) (s : List Char) : Bool :=
  match matchLit s lit with
  | some r =>
    match skipSpaces r with
    | '(' :: r2 =>
      match skipSpaces r2 with
      | c :: _ => isQuoteChar c
      | [] => false
    | _ => false
  | none => false

/-- `while\s*\(\s*true\s*\)`. -/
def matchWhileTrueAt (s : List Char) : Bool :=
  match matchLit s ("while".toList) with
  | some r =>
    match skipSpaces r with
    | '(' :: r2 =>
      match matchLit (skipSpaces r2) ("true".toList) with
      | some r3 =>
        match skipSpaces r3 with
        | ')' :: _ => true
        | _ => false
      | none => false
    | _ => false
  | none => false

/-- `for\s*\(\s*;\s*;\s*\)`. -/
def matchForSemiAt (s : List Char) : Bool :=
  match matchLit s ("for".toList) with
  | some r =>
    match skipSpaces r with
    | '(' :: r2 =>
      match skipSpaces r2 with
      | ';' :: r3 =>
        match skipSpaces r3 with
        | ';' :: r4 =>
          match skipSpaces r4 with
          | ')' :: _ => true
          | _ => false
        | _ => false
      | _ => false
    | _ => false
  | none => false

/-- The tail `\s+from\s+['"\x60]` of the import regex. -/
def importTailAt (s : List Char) : Bool :=
  match skipSpaces1 s with
  | some r1 =>
    match matchLit r1 ("from".toList) with
    | some r2 =>
      match skipSpaces1 r2 with
      | some r3 =>
        match r3 with
        | c :: _ => isQuoteChar c
        | [] => false
      | none => false
    | none => false
  | none => false

/-- Scan for the import tail while consuming `.*` characters (JS `.` matches
anything except a line terminator, so the scan stops at `\n` / `\r`). -/
def importScanDot : List Char → Bool
  | [] => false
  | c :: rest =>
    if importTailAt (c :: rest) then true
    else if c = '\n' || c = '\x0d' then false
    else importScanDot rest

/-- Scan for the import tail while still inside the leading `\s+` (whitespace,
including line breaks, may be absorbed there before `.*` starts). -/
def importScanWs : List Char → Bool
  | [] => false
  | c :: rest =>
    if importTailAt (c :: rest) then true
    else if isSpaceChar c then importScanWs rest
    else importScanDot (c :: rest)

/-- `import\s+.*\s+from\s+['"\x60]`. -/
def matchImportAt (s : List Char) : Bool :=
  match matchLit s ("import".toList) with
  | some (c :: r) => isSpaceChar c && importScanWs r
  | _ => false

/-- The tail `\w+\s*\(` of the recursion-heuristic regex. -/
def recTailAt (s : List Char) : Bool :=
  match skipWord1 s with
  | some r =>
    match skipSpaces r with
    | '(' :: _ => true
    | _ => false
  | none => false

/-- Scan for `recTailAt` while consuming `[^}]*` characters. -/
def recBodyScan : List Char → Bool
  | [] => false
  | c :: rest =>
    if recTailAt (c :: rest) then true
    else if c = '\x7d' then false
    else recBodyScan rest

/-- `function\s+\w+\s*\([^)]*\)\s*\{[^}]*\w+\s*\(` (the simplified recursion
pattern). -/
def matchRecursionAt (s : List Char) : Bool :=
  match matchLit s ("function".toList) with
  | some r1 =>
    match skipSpaces1 r1 with
    | some r2 =>
      match skipWord1 r2 with
      | some r3 =>
        match skipSpaces r3 with
        | '(' :: r4 =>
          match r4.dropWhile (fun c => c ≠ ')') with
          | ')' :: r5 =>
            match skipSpaces r5 with
            | '\x7b' :: r6 => recBodyScan r6
            | _ => false
          | _ => false
        | _ => false
      | none => false
    | none => false
  | none => false

/-! ## First-match search (`findAllMatches` + `exec` semantics)

The rules' regexes carry no `g` flag, so `findAllMatches` either returns an
empty list (no match anywhere) or a list whose head is the leftmost match;
`analyze` only consumes `matches.length > 0` and `matches[0].index`, which is
exactly the leftmost match index computed here. -/

def firstIdxFrom (m : List Char → Bool) : List Char → Nat → Option Nat
  | [], i => if m [] then some i else none
  | c :: rest, i => if m (c :: rest) then some i else firstIdxFrom m rest (i + 1)

def firstMatchIdx (m : List Char → Bool) (code : List Char) : Option Nat :=
  firstIdxFrom m code 0

/-- `findLineNumber`: one plus the number of newlines before the match. -/
def findLineNumber (code : List Char) (idx : Nat) : Nat :=
  ((code.take idx).filter (fun c => c = '\n')).length + 1

/-! ## Complexity / resource heuristics -/

/-- `calculateMaxNesting`: brace-depth fold; a stray `}` clamps at zero
(`Math.max(0, currentDepth - 1)`, which is `Nat` truncated subtraction). -/
def maxNestingAux : List Char → Nat → Nat → Nat
  | [], _, maxDepth => maxDepth
  | c :: rest, cur, maxDepth =>
    if c = '\x7b' then maxNestingAux rest (cur + 1) (max maxDepth (cur + 1))
    else if c = '\x7d' then maxNestingAux rest (cur - 1) maxDepth
    else maxNestingAux rest cur maxDepth

def calculateMaxNesting (code : List Char) : Nat :=
  maxNestingAux code 0 0

/-- Count matches of a global regex: at each position try the match; on
success continue after the matched text (JS `String.match` with `g`). The
fuel argument only makes the recursion structural; `l.length` steps always
suffice because every step consumes at least one character. -/
def countMatchesFuel (matchLen : List Char → Option Nat) : Nat → List Char → Nat
  | 0, _ => 0
  | _ + 1, [] => 0
  | fuel + 1, c :: rest =>
    match matchLen (c :: rest) with
    | some n => 1 + countMatchesFuel matchLen fuel (List.drop (n - 1) rest)
    | none => countMatchesFuel matchLen fuel rest

def countMatches (matchLen : List Char → Option Nat) (l : List Char) : Nat :=
  countMatchesFuel matchLen l.length l

/-- Length of a match of a literal at this position. -/
def litLen (lit : List Char) (s : List Char) : Option Nat :=
  match matchLit s lit with
  | some r => some (s.length - r.length)
  | none => none

/-- Length of a match of `lit\s*ch` at this position. -/
def litSpacesCharLen (lit : List Char) (ch : Char) (s : List Char) : Option Nat :=
  match matchLit s lit with
  | some r =>
    match skipSpaces r with
    | c :: r2 => if c = ch then some (s.length - r2.length) else none
    | [] => none
  | none => none

/-- Length of a match of `function\s+\w+` at this position. -/
def funcDeclLen (s : List Char) : Option Nat :=
  match matchLit s ("function".toList) with
  | some r1 =>
    match skipSpaces1 r1 with
    | some r2 =>
      match skipWord1 r2 with
      | some r3 => some (s.length - r3.length)
      | none => none
    | none => none
  | none => none

/-- Length of a match of `for\s*\(|while\s*\(|do\s*\{` at this position
(alternatives tried left to right, as JS does). -/
def loopLen (s : List Char) : Option Nat :=
  (litSpacesCharLen ("for".toList) '(' s).orElse fun _ =>
    (litSpacesCharLen ("while".toList) '(' s).orElse fun _ =>
      litSpacesCharLen ("do".toList) '\x7b' s

/-- Length of a match of `\.push\(|\.pop\(|\.shift\(|\.unshift\(`. -/
def arrayOpLen (s : List Char) : Option Nat :=
  (litLen (".push(".toList) s).orElse fun _ =>
    (litLen (".pop(".toList) s).orElse fun _ =>
      (litLen (".shift(".toList) s).orElse fun _ =>
        litLen (".unshift(".toList) s

/-- `analyzeComplexity`. -/
def analyzeComplexity (code : List Char) : List SecurityIssue :=
  let maxNesting := calculateMaxNesting code
  let nestingIssues : List SecurityIssue :=
    if maxNesting > 15 then
      [{ type := IssueType.suspicious_pattern
         message := "代码嵌套深度过深 (" ++ toString maxNesting ++ " 层)"
         line := none
         severity := Severity.medium
         suggestion := some "请考虑重构代码以降低复杂度" }]
    else []
  let functionCount := countMatches funcDeclLen code
  let functionIssues : List SecurityIssue :=
    if functionCount > 20 then
      [{ type := IssueType.suspicious_pattern
         message := "函数数量过多 (" ++ toString functionCount ++ " 个)"
         line := none
         severity := Severity.low
         suggestion := some "请考虑将代码拆分为更小的模块" }]
    else []
  nestingIssues ++ functionIssues

/-- `analyzeResourceUsage`. -/
def analyzeResourceUsage (code : List Char) : List SecurityIssue :=
  let loopCount := countMatches loopLen code
  let loopIssues : List SecurityIssue :=
    if loopCount > 5 then
      [{ type := IssueType.resource_abuse
         message := "检测到大量循环 (" ++ toString loopCount ++ " 个)"
         line := none
         severity := Severity.medium
         suggestion := some "请确保循环有适当的退出条件和时间限制" }]
    else []
  let arrayOps := countMatches arrayOpLen code
  let arrayIssues : List SecurityIssue :=
    if arrayOps > 20 then
      [{ type := IssueType.resource_abuse
         message := "检测到大量数组操作 (" ++ toString arrayOps ++ " 次)"
         line := none
         severity := Severity.low
         suggestion := some "请考虑优化数组操作或添加大小限制" }]
    else []
  loopIssues ++ arrayIssues

/-! ## The rule set (`dangerousPatterns`) and `analyze` -/

/-- One entry of the `dangerousPatterns` array. -/
structure AnalysisRule where
  matchAt : List Char → Bool
  type : IssueType
  severity : Severity
  message : String
  suggestion : String

/-- The first rule of `dangerousPatterns` (`/eval\s*\(/`), named so theorems
can point at it. -/
def evalRule : AnalysisRule :=
  { matchAt := litParenAt ("eval".toList)
    type := IssueType.dangerous_api
    severity := Severity.critical
    message := "检测到 eval() 使用"
    suggestion := "eval() 可能导致代码注入攻击，请避免使用" }

/-- The second rule of `dangerousPatterns` (`/Function\s*\(/`). -/
def functionRule : AnalysisRule :=
  { matchAt := litParenAt ("Function".toList)
    type := IssueType.dangerous_api
    severity := Severity.critical
    message := "检测到 Function 构造函数使用"
    suggestion := "Function 构造函数可能导致代码注入攻击" }

def dangerousPatterns : List AnalysisRule :=
  [ evalRule,
    functionRule,
    { matchAt := litParenQuoteAt ("setTimeout".toList)
      type := IssueType.dangerous_api
      severity := Severity.high
      message := "检测到字符串形式的 setTimeout 调用"
      suggestion := "请使用函数而不是字符串作为 setTimeout 的第一个参数" },
    { matchAt := litParenQuoteAt ("setInterval".toList)
      type := IssueType.dangerous_api
      severity := Severity.high
      message := "检测到字符串形式的 setInterval 调用"
      suggestion := "请使用函数而不是字符串作为 setInterval 的第一个参数" },
    { matchAt := litAt ("document.".toList)
      type := IssueType.dangerous_api
      severity := Severity.high
      message := "检测到 DOM 操作"
      suggestion := "DOM 操作在沙箱环境中可能不安全" },
    { matchAt := litAt ("window.".toList)
      type := IssueType.dangerous_api
      severity := Severity.high
      message := "检测到 window 对象访问"
      suggestion := "window 对象访问可能破坏沙箱隔离" },
    { matchAt := litAt ("localStorage".toList)
      type := IssueType.dangerous_api
      severity := Severity.medium
      message := "检测到 localStorage 使用"
      suggestion := "localStorage 在沙箱环境中被禁用" },
    { matchAt := litAt ("sessionStorage".toList)
      type := IssueType.dangerous_api
      severity := Severity.medium
      message := "检测到 sessionStorage 使用"
      suggestion := "sessionStorage 在沙箱环境中被禁用" },
    { matchAt := litAt ("XMLHttpRequest".toList)
      type := IssueType.dangerous_api
      severity := Severity.high
      message := "检测到 XMLHttpRequest 使用"
      suggestion := "网络请求在沙箱环境中被禁用" },
    { matchAt := litParenAt ("fetch".toList)
      type := IssueType.dangerous_api
      severity := Severity.high
      message := "检测到 fetch API 使用"
      suggestion := "网络请求在沙箱环境中被禁用" },
    { matchAt := litParenAt ("require".toList)
      type := IssueType.dangerous_api
      severity := Severity.high
      message := "检测到 require() 使用"
      suggestion := "require() 在浏览器环境中不可用" },
    { matchAt := matchImportAt
      type := IssueType.dangerous_api
      severity := Severity.medium
      message := "检测到 ES6 模块导入"
      suggestion := "模块导入在沙箱环境中可能不可用" },
    { matchAt := matchWhileTrueAt
      type := IssueType.suspicious_pattern
      severity := Severity.high
      message := "检测到无限循环模式"
      suggestion := "无限循环可能导致页面冻结，请添加退出条件" },
    { matchAt := matchForSemiAt
      type := IssueType.suspicious_pattern
      severity := Severity.high
      message := "检测到无限循环模式"
      suggestion := "无限循环可能导致页面冻结，请添加退出条件" },
    { matchAt := matchRecursionAt
      type := IssueType.suspicious_pattern
      severity := Severity.medium
      message := "检测到可能的递归调用"
      suggestion := "请确保递归有适当的退出条件，避免栈溢出" } ]

/-- The issue a rule contributes when its first (leftmost) match is at `idx`. -/
def ruleIssue (code : List Char) (r : AnalysisRule) (idx : Nat) : SecurityIssue :=
  { type := r.type
    message := r.message
    line := some (findLineNumber code idx)
    severity := r.severity
    suggestion := some r.suggestion }

/-- The per-rule loop of `analyze`: one issue per rule that matches, built
from the first match only. -/
def ruleIssues (code : List Char) : List SecurityIssue :=
  dangerousPatterns.filterMap fun r =>
    match firstMatchIdx r.matchAt code with
    | some idx => some (ruleIssue code r idx)
    | none => none

/-- `calculateRiskLevel` (the source's `criticalCount` / `highCount` /
`mediumCount` filter-lengths inlined). -/
def calculateRiskLevel (issues : List SecurityIssue) : RiskLevel :=
  if (issues.filter fun i => i.severity = Severity.critical).length > 0 then
    RiskLevel.critical
  else if (issues.filter fun i => i.severity = Severity.high).length > 2 then
    RiskLevel.high
  else if (issues.filter fun i => i.severity = Severity.high).length > 0
       || (issues.filter fun i => i.severity = Severity.medium).length > 3 then
    RiskLevel.medium
  else RiskLevel.low

/-- `calculateConfidence`; JS float arithmetic embedded as exact rationals
(`issueDensity = issues.length / max(codeLength / 100, 1)`). -/
def calculateConfidence (issues : List SecurityIssue) (code : List Char) : ℚ :=
  if issues.length = 0 then 1
  else
    max (1 / 10)
      (1 - (issues.length : ℚ) / max ((code.length : ℚ) / 100) 1 * (1 / 10))

/-- `SecurityAnalysisResult`; `analysisTime` is a wall-clock reading in the
source and is fixed to `0` in the embedding (no claim concerns it). -/
structure SecurityAnalysisResult where
  safe : Bool
  issues : List SecurityIssue
  riskLevel : RiskLevel
  confidence : ℚ
  analysisTime : ℚ
deriving DecidableEq, Repr

/-- `CodeAnalysisLayer.analyze`. -/
def analyze (code : List Char) : SecurityAnalysisResult :=
  let issues := ruleIssues code ++ analyzeComplexity code ++ analyzeResourceUsage code
  { safe := issues.length == 0
    issues := issues
    riskLevel := calculateRiskLevel issues
    confidence := calculateConfidence issues code
    analysisTime := 0 }

/-! ## Runtime violations and the summary risk rule -/

inductive ViolationType
  | timeout
  | memory_limit
  | stack_overflow
  | blocked_api
  | resource_abuse
deriving DecidableEq, Repr

/-- `RuntimeViolation`; the untyped `metadata` bag of the source is omitted
(no claim concerns it). -/
structure RuntimeViolation where
  type : ViolationType
  message : String
  severity : Severity
  timestamp : Nat
deriving DecidableEq, Repr

/-- The risk-level computation inside `SecurityManager.getSecuritySummary`
(`riskLevel` starts at `'low'` and is only recomputed when violations exist;
count variables inlined as filter-lengths). -/
def summaryRiskLevel (violations : List RuntimeViolation) : RiskLevel :=
  if violations.length > 0 then
    if (violations.filter fun v => v.severity = Severity.critical).length > 0 then
      RiskLevel.critical
    else if (violations.filter fun v => v.severity = Severity.high).length > 2 then
      RiskLevel.high
    else if (violations.filter fun v => v.severity = Severity.high).length > 0
         || (violations.filter fun v => v.severity = Severity.medium).length > 3 then
      RiskLevel.medium
    else RiskLevel.low
  else RiskLevel.low

/-- Modelled from the spec's words, for comparison in claim C6: "critical if
any critical-severity issue exists; else high if more than 2 high-severity
issues; else medium if (any high-severity issue) or (more than 3
medium-severity issues); else low", as a function of the severity list. -/
def specRiskLevel (sevs : List Severity) : RiskLevel :=
  if (sevs.filter (fun s => s = Severity.critical)).length > 0 then RiskLevel.critical
  else if (sevs.filter (fun s => s = Severity.high)).length > 2 then RiskLevel.high
  else if (sevs.filter (fun s => s = Severity.high)).length > 0
       || (sevs.filter (fun s => s = Severity.medium)).length > 3 then RiskLevel.medium
  else RiskLevel.low

/-! ## RuntimeMonitoringLayer (security/runtime-monitoring.ts)

State-mutating methods are embedded as functions from state to state.
`Date.now()` readings and sampled memory / stack-depth values are explicit
parameters. A JS `throw` is surfaced as `Except.error` carrying the message;
the mutations performed before the throw survive it (the object outlives the
exception), so every method returns the final state alongside its
`Except` outcome. -/

structure RuntimeSecurityConfig where
  maxExecutionTime : Nat
  maxMemoryUsage : Nat
  maxStackDepth : Nat
  allowedAPIs : List String
  blockedAPIs : List String
  enableResourceMonitoring : Bool
  enableCodeAnalysis : Bool
deriving DecidableEq, Repr

/-- The constructor defaults of `RuntimeMonitoringLayer`. -/
def defaultMonitorConfig : RuntimeSecurityConfig :=
  { maxExecutionTime := 5000
    maxMemoryUsage := 50
    maxStackDepth := 100
    allowedAPIs :=
      ["console", "Date", "Math", "JSON", "Array", "Object",
       "String", "Number", "Boolean", "RegExp", "Promise",
       "setTimeout", "clearTimeout", "setInterval", "clearInterval"]
    blockedAPIs :=
      ["eval", "Function", "document", "window", "localStorage",
       "sessionStorage", "XMLHttpRequest", "fetch", "require",
       "process", "global", "Buffer", "fs", "path"]
    enableResourceMonitoring := true
    enableCodeAnalysis := true }

inductive SecurityEventType
  | analysis
  | violation
  | block
  | allow
deriving DecidableEq, Repr

/-- `SecurityEvent`; the randomly generated `id` string and the optional
`code` / `result` / `metadata` payloads are omitted (no claim concerns
them). -/
structure SecurityEvent where
  type : SecurityEventType
  timestamp : Nat
  violation : Option RuntimeViolation
deriving DecidableEq, Repr

structure MonitorState where
  config : RuntimeSecurityConfig
  violations : List RuntimeViolation
  events : List SecurityEvent
  blockedExecutions : Nat
  executionStartTime : Nat
  memoryBaseline : Int
  isMonitoring : Bool
deriving DecidableEq, Repr

/-- Push onto a capped ring buffer: `push` then `slice(-cap)` when the
length exceeds the cap. -/
def pushCapped {α : Type} (cap : Nat) (l : List α) (x : α) : List α :=
  let grown := l ++ [x]
  if grown.length > cap then grown.drop (grown.length - cap) else grown

/-- Private `stopExecution()` of the monitor: stops monitoring, counts the
blocked execution, records a `block` event, then throws. -/
def monStopExecution (st : MonitorState) (now : Nat) : MonitorState × Except String Unit :=
  let st1 := { st with isMonitoring := false, blockedExecutions := st.blockedExecutions + 1 }
  let st2 := { st1 with
    events := pushCapped 500 st1.events
      { type := SecurityEventType.block, timestamp := now, violation := none } }
  (st2, Except.error "代码执行被安全监控阻止")

/-- `recordViolation`: append (capped at 100), record the event, and on a
`critical` severity escalate through `monStopExecution` (which throws). -/
def recordViolation (st : MonitorState) (vtype : ViolationType) (message : String)
    (severity : Severity) (now : Nat) : MonitorState × Except String Unit :=
  let fullViolation : RuntimeViolation :=
    { type := vtype, message := message, severity := severity, timestamp := now }
  let st1 := { st with violations := pushCapped 100 st.violations fullViolation }
  let st2 := { st1 with
    events := pushCapped 500 st1.events
      { type := SecurityEventType.violation, timestamp := now, violation := some fullViolation } }
  if severity = Severity.critical then monStopExecution st2 now
  else (st2, Except.ok ())

/-- `checkAPIAccess`. -/
def checkAPIAccess (st : MonitorState) (apiName : String) (now : Nat) :
    MonitorState × Except String Bool :=
  if !(st.config.blockedAPIs.contains apiName) then (st, Except.ok true)
  else
    let (st1, r) := recordViolation st ViolationType.blocked_api
      ("尝试访问被禁止的API: " ++ apiName) Severity.high now
    (st1, r.map fun _ => false)

/-- `checkResourceLimits`. `currentMemory` and `stackDepth` are the sampled
environment readings (`performance.memory.usedJSHeapSize` and the throw-site
stack depth). The memory-violation message abbreviates the source's
`toFixed(2)` float formatting. -/
def checkResourceLimits (st : MonitorState) (currentMemory : Int) (stackDepth : Nat)
    (now : Nat) : MonitorState × Except String Bool :=
  if !st.config.enableResourceMonitoring then (st, Except.ok true)
  else
    let memoryIncrease := currentMemory - st.memoryBaseline
    if memoryIncrease > (st.config.maxMemoryUsage : Int) * 1024 * 1024 then
      let (st1, r) := recordViolation st ViolationType.memory_limit
        ("内存使用超出限制: " ++ toString (memoryIncrease / 1024 / 1024) ++ "MB")
        Severity.high now
      (st1, r.map fun _ => false)
    else if stackDepth > st.config.maxStackDepth then
      let (st1, r) := recordViolation st ViolationType.stack_overflow
        ("调用栈深度超出限制: " ++ toString stackDepth) Severity.critical now
      (st1, r.map fun _ => false)
    else (st, Except.ok true)

/-- The synchronous part of `startMonitoring` (the scheduled timeout /
memory / stack checks fire later through the event loop). -/
def startMonitoring (st : MonitorState) (now : Nat) (currentMemory : Int) : MonitorState :=
  if st.isMonitoring then st
  else
    let st1 := { st with
      isMonitoring := true, executionStartTime := now, memoryBaseline := currentMemory }
    { st1 with
      events := pushCapped 500 st1.events
        { type := SecurityEventType.allow, timestamp := now, violation := none } }

/-- `stopMonitoring` (the `updateMetrics` call only recomputes derived
aggregates, which the embedding derives on read instead). -/
def stopMonitoring (st : MonitorState) (now : Nat) : MonitorState :=
  if !st.isMonitoring then st
  else
    let st1 := { st with isMonitoring := false }
    { st1 with
      events := pushCapped 500 st1.events
        { type := SecurityEventType.allow, timestamp := now, violation := none } }

/-! ## SecurityManager (security/security-manager.ts) -/

structure SecurityManagerState where
  isEnabled : Bool
  monitor : MonitorState
deriving DecidableEq, Repr

/-- `SecurityManager.analyzeCode`: short-circuits to an always-safe result
when disabled. -/
def analyzeCode (sm : SecurityManagerState) (code : List Char) : SecurityAnalysisResult :=
  if !sm.isEnabled then
    { safe := true, issues := [], riskLevel := RiskLevel.low, confidence := 1, analysisTime := 0 }
  else analyze code

/-- The `第${issue.line}行: ${issue.message}` template; a missing line is the
JS `undefined` interpolation. -/
def issueMessage (issue : SecurityIssue) : String :=
  "第" ++ (match issue.line with | some n => toString n | none => "undefined") ++ "行: "
    ++ issue.message

structure SecureEnvResult where
  isSafe : Bool
  analysis : SecurityAnalysisResult
  warnings : List String
  errors : List String
deriving DecidableEq, Repr

/-- `SecurityManager.createSecureExecutionEnvironment`. -/
def createSecureExecutionEnvironment (sm : SecurityManagerState) (code : List Char) :
    SecureEnvResult :=
  let analysis := analyzeCode sm code
  let errors := (analysis.issues.filter fun i =>
    i.severity = Severity.critical || i.severity = Severity.high).map issueMessage
  let warnings := (analysis.issues.filter fun i =>
    !(i.severity = Severity.critical || i.severity = Severity.high)).map issueMessage
  let isSafe : Bool :=
    !(analysis.riskLevel = RiskLevel.critical
      || (analysis.riskLevel = RiskLevel.high && errors.length > 2))
  { isSafe := isSafe, analysis := analysis, warnings := warnings, errors := errors }

structure SecuritySummary where
  isEnabled : Bool
  totalViolations : Nat
  blockedExecutions : Nat
  lastViolation : Option RuntimeViolation
  riskLevel : RiskLevel
deriving DecidableEq, Repr

/-- `SecurityManager.getSecuritySummary`. -/
def getSecuritySummary (sm : SecurityManagerState) : SecuritySummary :=
  { isEnabled := sm.isEnabled
    totalViolations := sm.monitor.violations.length
    blockedExecutions := sm.monitor.blockedExecutions
    lastViolation := sm.monitor.violations.getLast?
    riskLevel := summaryRiskLevel sm.monitor.violations }

/-- `SecurityManager.startRuntimeMonitoring`. -/
def startRuntimeMonitoring (sm : SecurityManagerState) (now : Nat) (currentMemory : Int) :
    SecurityManagerState :=
  if !sm.isEnabled then sm
  else { sm with monitor := startMonitoring sm.monitor now currentMemory }

/-- `SecurityManager.stopRuntimeMonitoring`. -/
def stopRuntimeMonitoring (sm : SecurityManagerState) (now : Nat) : SecurityManagerState :=
  { sm with monitor := stopMonitoring sm.monitor now }

/-! ## The store (code-runner-store.ts), reduced to the observable sink

`addOutput` stamps each record with a random id and `Date.now()`; the
embedding keeps the payload the callers pass (`Omit<CodeOutput,
'id'|'timestamp'>`). -/

inductive OutputKind
  | log
  | error
  | warn
  | info
deriving DecidableEq, Repr

inductive OutputSource
  | console
  | error
  | timeout
  | security
  | system
deriving DecidableEq, Repr

structure CodeOutput where
  type : OutputKind
  message : String
  source : OutputSource
deriving DecidableEq, Repr

structure CodeExecutionState where
  isRunning : Bool
  isPaused : Bool
  executionId : Option String
  startTime : Option Nat
  timeoutId : Option Nat
  executionTime : Option Nat
  firstExecutionTime : Option Nat
deriving DecidableEq, Repr

structure CompileState where
  isCompiling : Bool
  compileErrors : List String
  compileWarnings : List String
  compileTime : Option Nat
  firstCompileTime : Option Nat
deriving DecidableEq, Repr

structure StoreState where
  outputs : List CodeOutput
  executionState : CodeExecutionState
  compileState : CompileState
deriving DecidableEq, Repr

def addOutput (st : StoreState) (o : CodeOutput) : StoreState :=
  { st with outputs := st.outputs ++ [o] }

def clearOutputs (st : StoreState) : StoreState :=
  { st with outputs := [] }

structure SandboxConfig where
  timeout : Nat
  maxMemory : Nat
  allowedAPIs : List String
  blockedAPIs : List String
deriving DecidableEq, Repr

/-- JS `a || b` on a nullable number (`null` and `0` are falsy). -/
def jsOrNat (a : Option Nat) (b : Nat) : Nat :=
  match a with
  | some t => if t = 0 then b else t
  | none => b

/-- `config.timeout || 10000`. -/
def jsTimeoutOf (config : SandboxConfig) : Nat :=
  if config.timeout = 0 then 10000 else config.timeout

def addOutputs (st : StoreState) (os : List CodeOutput) : StoreState :=
  os.foldl addOutput st

/-! ## SimpleSandboxManager (the JS/TS/PHP dispatcher)

The external collaborators are oracles passed as arguments: the esbuild
compiler result, the PHP sandbox outcome, the observable effect of
evaluating the user function (its console emissions and whether it threw),
the performance monitor's duration readings, and the id / clock / timer
values. The armed watchdog timer cannot fire during the synchronous body
(single-threaded event loop), so its only footprint here is the stored
timer id. -/

structure SimpleSandboxState where
  executionId : Option String
  timeoutId : Option Nat
  startTime : Nat
deriving DecidableEq, Repr

structure DispatcherWorld where
  manager : SimpleSandboxState
  store : StoreState
  security : SecurityManagerState
deriving DecidableEq, Repr

inductive SimpleLanguage
  | javascript
  | typescript
  | php
deriving DecidableEq, Repr

/-- The esbuild collaborator's result (`errors`/`warnings` of `undefined`
are embedded as `[]`, which the `|| '未知错误'` fallback treats alike). -/
structure CompileResult where
  success : Bool
  code : Option (List Char)
  errors : List String
  warnings : List String
deriving DecidableEq, Repr

/-- Observable effect of `func(secureGlobal)`: the console emissions in
order, then either a normal return or a thrown error message. -/
inductive RunOutcome
  | ok (outs : List (OutputKind × String))
  | threw (outs : List (OutputKind × String)) (msg : String)
deriving DecidableEq, Repr

/-- Observable effect of `phpSandboxManager.executeCode`: the outputs it
pushed itself, and whether it resolved or rejected. -/
inductive PhpOutcome
  | ok (outs : List CodeOutput)
  | threw (outs : List CodeOutput) (msg : String)
deriving DecidableEq, Repr

def consoleOutputs (outs : List (OutputKind × String)) : List CodeOutput :=
  outs.map fun p => { type := p.1, message := p.2, source := OutputSource.console }

/-- `SimpleSandboxManager.stopExecution`. -/
def simpleStopExecution (w : DispatcherWorld) (now : Nat) : DispatcherWorld :=
  match w.manager.executionId with
  | none => w
  | some _ =>
    let security := stopRuntimeMonitoring w.security now
    let store := { w.store with executionState := { w.store.executionState with
      isRunning := false, isPaused := false, executionId := none,
      startTime := none, timeoutId := none } }
    { manager := { executionId := none, timeoutId := none, startTime := 0 },
      store := store, security := security }

structure SandboxStatus where
  isRunning : Bool
  isReady : Bool
  executionId : Option String
  startTime : Nat
deriving DecidableEq, Repr

/-- `SimpleSandboxManager.getStatus`. -/
def simpleGetStatus (st : SimpleSandboxState) : SandboxStatus :=
  { isRunning := st.executionId.isSome, isReady := true,
    executionId := st.executionId, startTime := st.startTime }

/-- The execution half shared by the javascript and typescript paths: arm
the watchdog, run the security gate over the ORIGINAL source text, and on
pass evaluate the user function; every failure is caught and converted into
an error output plus `stopExecution`. -/
def runCompiledCode (w0 : DispatcherWorld) (origCode : List Char)
    (now tid execTime : Nat) (runOutcome : RunOutcome) (memSample : Int) :
    DispatcherWorld :=
  let w := { w0 with manager := { w0.manager with timeoutId := some tid } }
  let securityCheck := createSecureExecutionEnvironment w.security origCode
  if !securityCheck.isSafe then
    let store := addOutputs w.store (securityCheck.warnings.map fun s =>
      { type := OutputKind.warn, message := "安全警告: " ++ s, source := OutputSource.security })
    let store := addOutputs store (securityCheck.errors.map fun s =>
      { type := OutputKind.error, message := "安全错误: " ++ s, source := OutputSource.security })
    -- `throw` caught by the surrounding catch block
    let security := stopRuntimeMonitoring w.security now
    let store := addOutput store
      { type := OutputKind.error, message := "代码包含不安全操作，执行被阻止",
        source := OutputSource.error }
    simpleStopExecution { manager := w.manager, store := store, security := security } now
  else
    let store := addOutputs w.store (securityCheck.warnings.map fun s =>
      { type := OutputKind.warn, message := "安全警告: " ++ s, source := OutputSource.security })
    let security := startRuntimeMonitoring w.security now memSample
    match runOutcome with
    | RunOutcome.ok outs =>
      let store := addOutputs store (consoleOutputs outs)
      let store := { store with executionState := { store.executionState with
        isRunning := false, executionTime := some execTime,
        firstExecutionTime := some (jsOrNat store.executionState.firstExecutionTime execTime) } }
      simpleStopExecution { manager := w.manager, store := store, security := security } now
    | RunOutcome.threw outs msg =>
      let store := addOutputs store (consoleOutputs outs)
      let security := stopRuntimeMonitoring security now
      let store := addOutput store
        { type := OutputKind.error, message := msg, source := OutputSource.error }
      simpleStopExecution { manager := w.manager, store := store, security := security } now

/-- `SimpleSandboxManager.executeCode`. -/
def executeCode (w : DispatcherWorld) (code : List Char) (config : SandboxConfig)
    (language : SimpleLanguage) (freshId : String) (now tid execTime : Nat)
    (compileResult : Except String CompileResult) (compileTime : Nat)
    (phpOutcome : PhpOutcome) (runOutcome : RunOutcome) (memSample : Int) :
    DispatcherWorld × Except String Unit :=
  if w.manager.executionId.isSome then
    (w, Except.error "已有代码正在执行中")
  else
    let manager1 : SimpleSandboxState :=
      { executionId := some freshId, timeoutId := w.manager.timeoutId, startTime := now }
    let store1 := { w.store with executionState := { w.store.executionState with
      isRunning := true, executionId := some freshId, startTime := some now,
      executionTime := none } }
    let store2 := clearOutputs store1
    let w1 : DispatcherWorld := { manager := manager1, store := store2, security := w.security }
    -- the watchdog armed for `jsTimeoutOf config` is `tid`; it cannot fire
    -- inside this synchronous body, so its only footprint is the stored id
    let _duration := jsTimeoutOf config
    match language with
    | SimpleLanguage.php =>
      match phpOutcome with
      | PhpOutcome.ok outs =>
        let store := addOutputs w1.store outs
        let store := { store with executionState := { store.executionState with
          isRunning := false, executionTime := some execTime,
          firstExecutionTime := some (jsOrNat store.executionState.firstExecutionTime execTime) } }
        (simpleStopExecution { w1 with store := store } now, Except.ok ())
      | PhpOutcome.threw outs msg =>
        let store := addOutputs w1.store outs
        let store := addOutput store
          { type := OutputKind.error, message := "PHP 执行失败: " ++ msg,
            source := OutputSource.error }
        (simpleStopExecution { w1 with store := store } now, Except.ok ())
    | SimpleLanguage.typescript =>
      let store := addOutput w1.store
        { type := OutputKind.info, message := "正在编译 TypeScript...",
          source := OutputSource.console }
      let store := { store with compileState := { store.compileState with
        isCompiling := true, compileTime := none } }
      match compileResult with
      | Except.error msg =>
        let store := addOutput store
          { type := OutputKind.error, message := "编译失败: " ++ msg,
            source := OutputSource.error }
        (simpleStopExecution { w1 with store := store } now, Except.ok ())
      | Except.ok res =>
        let store := { store with compileState := { store.compileState with
          isCompiling := false, compileTime := some compileTime,
          firstCompileTime := some (jsOrNat store.compileState.firstCompileTime compileTime) } }
        if !res.success then
          let joined := String.intercalate "\n" res.errors
          let emsg := if joined = "" then "未知错误" else joined
          let store := addOutput store
            { type := OutputKind.error, message := "编译错误: " ++ emsg,
              source := OutputSource.error }
          (simpleStopExecution { w1 with store := store } now, Except.ok ())
        else
          let store :=
            if res.warnings.length > 0 then
              addOutput store
                { type := OutputKind.warn
                  message := "编译警告: " ++ String.intercalate "\n" res.warnings
                  source := OutputSource.console }
            else store
          let store := addOutput store
            { type := OutputKind.info, message := "TypeScript 编译完成",
              source := OutputSource.console }
          (runCompiledCode { w1 with store := store } code now tid execTime runOutcome memSample,
           Except.ok ())
    | SimpleLanguage.javascript =>
      (runCompiledCode w1 code now tid execTime runOutcome memSample, Except.ok ())

/-! ## PythonSandboxManager (services/python-sandbox.ts) -/

/-- JS `String.prototype.trim` (ASCII whitespace model, consistent with
`isSpaceChar`). -/
def jsTrim (s : List Char) : List Char :=
  ((s.dropWhile isSpaceChar).reverse.dropWhile isSpaceChar).reverse

def jsTrimStr (s : String) : String :=
  String.mk (jsTrim s.toList)

/-- JS `String.prototype.includes`. -/
def strIncludes (s sub : String) : Bool :=
  (firstMatchIdx (litAt sub.toList) s.toList).isSome

/-- One line of `hasUnclosedQuotes`: the per-character scan threading the
(single, double, triple) quote flags. The fuel argument only makes the
recursion structural; `line.length` steps always suffice because every step
consumes at least one character. -/
def quoteScanFuel : Nat → List Char → Bool → Bool → Bool → Bool × Bool × Bool
  | 0, _, s, d, t => (s, d, t)
  | _ + 1, [], s, d, t => (s, d, t)
  | fuel + 1, c :: rest, s, d, t =>
    if t then
      match c, rest with
      | '"', '"' :: '"' :: r2 => quoteScanFuel fuel r2 s d false
      | '\'', '\'' :: '\'' :: r2 => quoteScanFuel fuel r2 s d false
      | _, _ => quoteScanFuel fuel rest s d t
    else
      match c, rest with
      | '"', '"' :: '"' :: r2 => quoteScanFuel fuel r2 s d true
      | '\'', '\'' :: '\'' :: r2 => quoteScanFuel fuel r2 s d true
      | '"', _ => if !s then quoteScanFuel fuel rest s (!d) t else quoteScanFuel fuel rest s d t
      | '\'', _ => if !d then quoteScanFuel fuel rest (!s) d t else quoteScanFuel fuel rest s d t
      | _, _ => quoteScanFuel fuel rest s d t

def quoteScanLine (line : List Char) (s d t : Bool) : Bool × Bool × Bool :=
  quoteScanFuel line.length line s d t

/-- `hasUnclosedQuotes`: split on newlines, scan each line, and report any
quote state still open at the end. -/
def hasUnclosedQuotes (code : List Char) : Bool :=
  let lines := (String.mk code).splitOn "\n"
  let final := lines.foldl
    (fun (acc : Bool × Bool × Bool) line => quoteScanLine line.toList acc.1 acc.2.1 acc.2.2)
    (false, false, false)
  final.1 || final.2.1 || final.2.2

/-- `formatSyntaxError`. -/
def formatSyntaxError (message : String) : String :=
  let lines := message.splitOn "\n"
  if lines.length ≥ 2 then
    let errorLine := lines.headD ""
    let codeLine := lines.getD 1 ""
    let pointer := lines.getD 2 ""
    "语法错误: " ++ errorLine ++ "\n代码: " ++ codeLine ++ "\n位置: " ++ pointer
  else "语法错误: " ++ message

/-- `formatRuntimeError`. -/
def formatRuntimeError (message : String) : String :=
  let lines := message.splitOn "\n"
  if lines.length ≥ 2 then
    let first := lines.headD ""
    let parts := first.splitOn ":"
    let errorType := parts.headD ""
    let errorMessage := jsTrimStr (String.intercalate ":" (parts.drop 1))
    let traceback := String.intercalate "\n" (lines.drop 1)
    errorType ++ ": " ++ errorMessage ++ "\n" ++ traceback
  else "运行时错误: " ++ message

/-- The capture of `/No module named '([^']+)'/` when it matches at this
position. -/
def moduleNameAt (s : List Char) : Option (List Char) :=
  match matchLit s ("No module named '".toList) with
  | some r =>
    let cap := r.takeWhile (fun c => c ≠ '\'')
    if cap.isEmpty then none
    else
      match r.drop cap.length with
      | '\'' :: _ => some cap
      | _ => none
  | none => none

def findModuleName : List Char → Option (List Char)
  | [] => none
  | c :: rest =>
    match moduleNameAt (c :: rest) with
    | some cap => some cap
    | none => findModuleName rest

/-- `formatImportError`. -/
def formatImportError (message : String) : String :=
  if strIncludes message "No module named" then
    match findModuleName message.toList with
    | some cap =>
      "模块导入错误: 找不到模块 '" ++ String.mk cap ++ "'\n提示: 该模块可能不在允许的包列表中"
    | none => "导入错误: " ++ message
  else "导入错误: " ++ message

/-- `formatPythonError` on an `Error`'s message string. -/
def formatPythonError (message : String) : String :=
  if strIncludes message "SyntaxError" then formatSyntaxError message
  else if strIncludes message "NameError" || strIncludes message "TypeError"
       || strIncludes message "ValueError" || strIncludes message "AttributeError" then
    formatRuntimeError message
  else if strIncludes message "ImportError" || strIncludes message "ModuleNotFoundError" then
    formatImportError message
  else message

structure PySandboxState where
  executionId : Option String
  timeoutId : Option Nat
  startTime : Nat
  isExecuting : Bool
  isInitialized : Bool
  workerAlive : Bool
  loadedPackages : List String
deriving DecidableEq, Repr

/-- Messages the manager posts to the python worker. -/
inductive PyWorkerInMsg
  | init
  | execute (executionId : String) (code : List Char) (timeoutMs : Nat)
  | loadPackage (name : String)
  | stop
deriving DecidableEq, Repr

/-- Messages the python worker posts back to the manager. -/
inductive PyWorkerOutMsg
  | ready
  | output (outputType : OutputKind) (message : String)
  | result (executionId : String) (res : String)
  | error (executionId : Option String) (err : String)
  | complete (executionId : String)
  | packageLoaded (name : String)
deriving DecidableEq, Repr

structure PyWorld where
  py : PySandboxState
  store : StoreState
  posted : List PyWorkerInMsg
deriving DecidableEq, Repr

def pyAddOutput (w : PyWorld) (o : CodeOutput) : PyWorld :=
  { w with store := addOutput w.store o }

/-- `terminateWorker`. -/
def pyTerminateWorker (w : PyWorld) : PyWorld :=
  { w with py := { w.py with workerAlive := false, isInitialized := false } }

/-- `cleanupExecution`. -/
def pyCleanupExecution (w : PyWorld) : PyWorld :=
  let py := { w.py with timeoutId := none, executionId := none, startTime := 0 }
  let store := { w.store with executionState := { w.store.executionState with
    isRunning := false, isPaused := false, executionId := none,
    startTime := none, timeoutId := none } }
  { w with py := py, store := store }

/-- `stopExecution`; `cleanupExecution` nulls `this.executionId` before the
template literal reads it, so the message always interpolates `null`. -/
def pyStopExecution (w : PyWorld) : PyWorld :=
  match w.py.executionId with
  | none => w
  | some _ =>
    let w1 := pyTerminateWorker w
    let w2 := pyCleanupExecution w1
    pyAddOutput w2
      { type := OutputKind.info, message := "Python 执行已停止 (ID: null)",
        source := OutputSource.system }

/-- `getStatus` (sans the internal `hasPyodide` field, which is dead in
worker mode). -/
def pyGetStatus (st : PySandboxState) : SandboxStatus :=
  { isRunning := st.executionId.isSome, isReady := st.isInitialized,
    executionId := st.executionId, startTime := st.startTime }

/-- Environment outcome of `initialize`: whether the Pyodide resources are
reachable (the worker's own READY handshake is folded into the successful
await, whose `onmessage` side effects land before the promise resolves). -/
inductive InitOutcome
  | resourcesUnavailable
  | ready
deriving DecidableEq, Repr

/-- `PythonSandboxManager.initialize`. -/
def pyInitialize (w : PyWorld) (outcome : InitOutcome) : PyWorld × Except String Unit :=
  if w.py.isInitialized && w.py.workerAlive then (w, Except.ok ())
  else
    match outcome with
    | InitOutcome.resourcesUnavailable =>
      let w1 := pyAddOutput w
        { type := OutputKind.error, message := "Pyodide资源不可用，请检查网络连接或本地资源",
          source := OutputSource.error }
      (w1, Except.error "Pyodide资源不可用")
    | InitOutcome.ready =>
      let w1 := pyAddOutput w
        { type := OutputKind.info, message := "正在初始化 Python 环境...",
          source := OutputSource.system }
      let w2 := { w1 with py := { w1.py with workerAlive := true },
                          posted := w1.posted ++ [PyWorkerInMsg.init] }
      let w3 := { w2 with py := { w2.py with isInitialized := true } }
      let w4 := pyAddOutput w3
        { type := OutputKind.info, message := "Python 环境初始化完成",
          source := OutputSource.system }
      (w4, Except.ok ())

/-- `PythonSandboxManager.executeCode`. The `finally` block clears
`isExecuting` on every exit path past the concurrency guard. -/
def pythonExecuteCode (w : PyWorld) (code : List Char) (config : SandboxConfig)
    (freshId : String) (now tid : Nat) (initOutcome : InitOutcome) :
    PyWorld × Except String Unit :=
  if w.py.isExecuting then
    (pyAddOutput w
      { type := OutputKind.warn, message := "Python 代码正在执行中，请等待完成后再试",
        source := OutputSource.system },
     Except.ok ())
  else
    let wStart := { w with py := { w.py with isExecuting := true } }
    let body : PyWorld × Except String Unit :=
      let w1 := pyStopExecution wStart
      match (if !w1.py.isInitialized then pyInitialize w1 initOutcome else (w1, Except.ok ())) with
      | (w2, Except.error e) =>
        -- catch: report the formatted error, clean up, and rethrow
        let w3 := pyAddOutput w2
          { type := OutputKind.error, message := "Python 执行错误: " ++ formatPythonError e,
            source := OutputSource.error }
        (pyCleanupExecution w3, Except.error e)
      | (w2, Except.ok ()) =>
        let w3 := { w2 with py := { w2.py with executionId := some freshId, startTime := now } }
        let w4 := { w3 with store := { w3.store with
          executionState := { w3.store.executionState with
            isRunning := true, executionId := some freshId, startTime := some now,
            executionTime := none } } }
        let w5 := { w4 with store := clearOutputs w4.store }
        let w6 := { w5 with py := { w5.py with timeoutId := some tid } }
        let cleanCode := jsTrim code
        if cleanCode.isEmpty then
          let w7 := pyAddOutput w6
            { type := OutputKind.error, message := "Python代码不能为空",
              source := OutputSource.error }
          (pyCleanupExecution w7, Except.ok ())
        else if hasUnclosedQuotes cleanCode then
          let w7 := pyAddOutput w6
            { type := OutputKind.error, message := "Python代码语法错误：存在未闭合的引号",
              source := OutputSource.error }
          (pyCleanupExecution w7, Except.ok ())
        else
          let w7 := pyAddOutput w6
            { type := OutputKind.info, message := "正在执行 Python 代码...",
              source := OutputSource.system }
          let w8 := { w7 with posted := w7.posted ++
            [PyWorkerInMsg.execute freshId cleanCode (jsTimeoutOf config)] }
          (w8, Except.ok ())
    ({ body.1 with py := { body.1.py with isExecuting := false } }, body.2)

/-- The `worker.onmessage` handler installed by `initialize`. -/
def handleWorkerMessage (w : PyWorld) (msg : PyWorkerOutMsg) : PyWorld :=
  match msg with
  | PyWorkerOutMsg.ready =>
    let w1 := { w with py := { w.py with isInitialized := true } }
    pyAddOutput w1
      { type := OutputKind.info, message := "Python 环境初始化完成", source := OutputSource.system }
  | PyWorkerOutMsg.output t m =>
    pyAddOutput w
      { type := t, message := m,
        source := if t = OutputKind.error then OutputSource.error else OutputSource.console }
  | PyWorkerOutMsg.result eid res =>
    if w.py.executionId = some eid then
      pyAddOutput w
        { type := OutputKind.log, message := "返回值: " ++ res, source := OutputSource.console }
    else w
  | PyWorkerOutMsg.error eid err =>
    let w1 := pyAddOutput w
      { type := OutputKind.error, message := "Python 执行错误: " ++ err,
        source := OutputSource.error }
    match eid with
    | none => pyCleanupExecution w1
    | some e => if w1.py.executionId = some e then pyCleanupExecution w1 else w1
  | PyWorkerOutMsg.complete eid =>
    if w.py.executionId = some eid then
      let w1 := pyAddOutput w
        { type := OutputKind.info, message := "Python 代码执行完成", source := OutputSource.system }
      pyCleanupExecution w1
    else w
  | PyWorkerOutMsg.packageLoaded name =>
    let pkgs :=
      if w.py.loadedPackages.contains name then w.py.loadedPackages
      else w.py.loadedPackages ++ [name]
    let w1 := { w with py := { w.py with loadedPackages := pkgs } }
    pyAddOutput w1
      { type := OutputKind.info, message := "包加载完成: " ++ name, source := OutputSource.system }

/-! ## The python worker (python-worker.ts) -/

structure WorkerState where
  isReady : Bool
  terminated : Bool
deriving DecidableEq, Repr

/-- How `runPythonAsync` (raced against the optional timer) settled. -/
inductive PyRunOutcome
  | value (v : Option String)
  | raised (msg : String)
  | timedOut
deriving DecidableEq, Repr

def pythonPlaceholder : List Char := "# Python代码\n".toList

/-- The worker's `executeCode`: returns the code string handed to
`runPythonAsync` (`none` when the not-ready guard fires first) and the
messages posted back to the manager. -/
def workerExecuteCode (ws : WorkerState) (executionId : String) (code : List Char)
    (outcome : PyRunOutcome) : Option (List Char) × List PyWorkerOutMsg :=
  if !ws.isReady then
    (none, [PyWorkerOutMsg.error (some executionId) "Python 环境未初始化"])
  else
    let cleanCode := if (jsTrim code).isEmpty then pythonPlaceholder else jsTrim code
    match outcome with
    | PyRunOutcome.value v =>
      if ws.terminated then (some cleanCode, [])
      else
        let resultMsgs :=
          match v with
          | some s => [PyWorkerOutMsg.result executionId s]
          | none => []
        (some cleanCode, resultMsgs ++ [PyWorkerOutMsg.complete executionId])
    | PyRunOutcome.raised msg =>
      if ws.terminated then (some cleanCode, [])
      else (some cleanCode, [PyWorkerOutMsg.error (some executionId) msg])
    | PyRunOutcome.timedOut =>
      if ws.terminated then (some cleanCode, [])
      else (some cleanCode, [PyWorkerOutMsg.error (some executionId) "Python代码执行超时"])

/-! ## Concrete fixtures used by witnesses and counterexamples -/

def idleExecState : CodeExecutionState :=
  { isRunning := false, isPaused := false, executionId := none, startTime := none,
    timeoutId := none, executionTime := none, firstExecutionTime := none }

def emptyStore : StoreState :=
  { outputs := []
    executionState := idleExecState
    compileState :=
      { isCompiling := false, compileErrors := [], compileWarnings := [],
        compileTime := none, firstCompileTime := none } }

def freshMonitor : MonitorState :=
  { config := defaultMonitorConfig, violations := [], events := [],
    blockedExecutions := 0, executionStartTime := 0, memoryBaseline := 0,
    isMonitoring := false }

def enabledSecurity : SecurityManagerState :=
  { isEnabled := true, monitor := freshMonitor }

def sandboxConfig10s : SandboxConfig :=
  { timeout := 10000, maxMemory := 50, allowedAPIs := [], blockedAPIs := [] }

def idleWorld : DispatcherWorld :=
  { manager := { executionId := none, timeoutId := none, startTime := 0 },
    store := emptyStore, security := enabledSecurity }

def busyWorld : DispatcherWorld :=
  { manager := { executionId := some "exec-0", timeoutId := some 4, startTime := 3 },
    store := emptyStore, security := enabledSecurity }

def pyReadyWorld : PyWorld :=
  { py := { executionId := none, timeoutId := none, startTime := 0, isExecuting := false,
            isInitialized := true, workerAlive := true, loadedPackages := [] },
    store := emptyStore, posted := [] }

def pyBusyWorld : PyWorld :=
  { py := { executionId := some "python-exec-0", timeoutId := some 9, startTime := 5,
            isExecuting := true, isInitialized := true, workerAlive := true,
            loadedPackages := [] },
    store := emptyStore, posted := [] }

def pyRunningWorld : PyWorld :=
  { py := { executionId := some "a", timeoutId := some 9, startTime := 5,
            isExecuting := false, isInitialized := true, workerAlive := true,
            loadedPackages := [] },
    store := { outputs := [],
               executionState :=
                 { isRunning := true, isPaused := false, executionId := some "a",
                   startTime := some 5, timeoutId := none, executionTime := none,
                   firstExecutionTime := none },
               compileState :=
                 { isCompiling := false, compileErrors := [], compileWarnings := [],
                   compileTime := none, firstCompileTime := none } },
    posted := [] }

def runningMonitor : MonitorState :=
  { config := defaultMonitorConfig, violations := [], events := [],
    blockedExecutions := 0, executionStartTime := 0, memoryBaseline := 0,
    isMonitoring := true }

/-! ## Helper lemmas -/

theorem addOutputs_def (os : List CodeOutput) (st : StoreState) :
    addOutputs st os = { st with outputs := st.outputs ++ os } := by
  induction os generalizing st with
  | nil => simp [addOutputs]
  | cons o os ih =>
    show addOutputs (addOutput st o) os = _
    rw [ih]
    simp [addOutput]

theorem riskOrd_le_three (r : RiskLevel) : riskOrd r ≤ 3 := by
  cases r <;> simp [riskOrd]

/-- `pushCapped` always keeps the element just pushed as the last entry. -/
theorem pushCapped_getLast {α : Type} (cap : Nat) (hcap : 0 < cap)
    (l : List α) (x : α) : (pushCapped cap l x).getLast? = some x := by
  unfold pushCapped
  by_cases h : (l ++ [x]).length > cap
  · rw [if_pos h]
    have hlen : (l ++ [x]).length - cap ≤ l.length := by
      simp only [List.length_append, List.length_singleton] at *
      omega
    rw [List.drop_append_of_le_length hlen]
    exact List.getLast?_concat _
  · rw [if_neg h]
    exact List.getLast?_concat _

/-- `recordViolation` leaves the freshly recorded violation as the last
ledger entry, whatever else it does. -/
theorem recordViolation_getLast (st : MonitorState) (vtype : ViolationType)
    (message : String) (severity : Severity) (now : Nat) :
    (recordViolation st vtype message severity now).1.violations.getLast? =
      some { type := vtype, message := message, severity := severity, timestamp := now } := by
  unfold recordViolation
  by_cases h : severity = Severity.critical
  · simp only [h, if_pos rfl, monStopExecution]
    exact pushCapped_getLast 100 (by omega) _ _
  · rw [if_neg h]
    exact pushCapped_getLast 100 (by omega) _ _

theorem firstIdxFrom_isSome_shift (m : List Char → Bool) (l : List Char) (i j : Nat) :
    (firstIdxFrom m l i).isSome = (firstIdxFrom m l j).isSome := by
  induction l generalizing i j with
  | nil =>
    simp only [firstIdxFrom]
    by_cases h : m [] <;> simp [h]
  | cons c rest ih =>
    simp only [firstIdxFrom]
    by_cases h : m (c :: rest)
    · simp [h]
    · simp only [h, Bool.false_eq_true, if_false]
      exact ih (i + 1) (j + 1)

/-- A match somewhere inside `s` is still a match somewhere inside
`c ++ s`. -/
theorem firstMatchIdx_append_isSome (m : List Char → Bool) (c s : List Char)
    (h : (firstMatchIdx m s).isSome = true) :
    (firstMatchIdx m (c ++ s)).isSome = true := by
  induction c with
  | nil => simpa using h
  | cons ch c' ih =>
    unfold firstMatchIdx at *
    simp only [List.cons_append, firstIdxFrom, List.append_eq]
    by_cases hm : m (ch :: (c' ++ s))
    · simp [hm]
    · simp only [hm, Bool.false_eq_true, if_false]
      rw [firstIdxFrom_isSome_shift m _ 1 0]
      exact ih

/-- Any critical-severity member forces `calculateRiskLevel` to `critical`. -/
theorem riskLevel_critical_of_mem (issues : List SecurityIssue) (i : SecurityIssue)
    (hmem : i ∈ issues) (hsev : i.severity = Severity.critical) :
    calculateRiskLevel issues = RiskLevel.critical := by
  unfold calculateRiskLevel
  have hfil : i ∈ issues.filter (fun j => j.severity = Severity.critical) :=
    List.mem_filter.mpr ⟨hmem, by simp [hsev]⟩
  have hpos : 0 < (issues.filter (fun j => j.severity = Severity.critical)).length :=
    List.length_pos.mpr (List.ne_nil_of_mem hfil)
  simp [hpos]

theorem analyze_issues_eq (code : List Char) :
    (analyze code).issues =
      ruleIssues code ++ analyzeComplexity code ++ analyzeResourceUsage code := rfl

theorem analyze_riskLevel_eq (code : List Char) :
    (analyze code).riskLevel = calculateRiskLevel (analyze code).issues := rfl

theorem analyze_confidence_eq (code : List Char) :
    (analyze code).confidence = calculateConfidence (analyze code).issues code := rfl

/-- If the `eval` rule or the `Function` rule fires, `ruleIssues` contains a
critical-severity issue. -/
theorem ruleIssues_critical_of_match (code : List Char)
    (h : (firstMatchIdx (litParenAt ("eval".toList)) code).isSome = true ∨
         (firstMatchIdx (litParenAt ("Function".toList)) code).isSome = true) :
    ∃ i ∈ ruleIssues code, i.severity = Severity.critical := by
  obtain h | h := h
  · obtain ⟨idx, hidx⟩ := Option.isSome_iff_exists.mp h
    refine ⟨ruleIssue code evalRule idx, ?_, rfl⟩
    apply List.mem_filterMap.mpr
    refine ⟨evalRule, List.mem_cons_self _ _, ?_⟩
    have hm : firstMatchIdx evalRule.matchAt code = some idx := hidx
    simp [hm]
  · obtain ⟨idx, hidx⟩ := Option.isSome_iff_exists.mp h
    refine ⟨ruleIssue code functionRule idx, ?_, rfl⟩
    apply List.mem_filterMap.mpr
    refine ⟨functionRule, List.mem_cons_of_mem _ (List.mem_cons_self _ _), ?_⟩
    have hm : firstMatchIdx functionRule.matchAt code = some idx := hidx
    simp [hm]

/-- A critical-rule trigger anywhere in the code pins `analyze`'s risk level
at `critical`. -/
theorem analyze_critical_of_trigger (code : List Char)
    (h : (firstMatchIdx (litParenAt ("eval".toList)) code).isSome = true ∨
         (firstMatchIdx (litParenAt ("Function".toList)) code).isSome = true) :
    (analyze code).riskLevel = RiskLevel.critical := by
  obtain ⟨i, hmem, hsev⟩ := ruleIssues_critical_of_match code h
  rw [analyze_riskLevel_eq]
  refine riskLevel_critical_of_mem _ i ?_ hsev
  rw [analyze_issues_eq]
  exact List.mem_append_left _ (List.mem_append_left _ hmem)

/-- The shape of `calculateConfidence`: bounded by `[0.1, 1]`, and equal to
`1` exactly on an empty issue list. -/
theorem calculateConfidence_spec (issues : List SecurityIssue) (code : List Char) :
    1 / 10 ≤ calculateConfidence issues code ∧ calculateConfidence issues code ≤ 1 ∧
    (calculateConfidence issues code = 1 ↔ issues = []) := by
  unfold calculateConfidence
  by_cases h : issues.length = 0
  · rw [if_pos h]
    exact ⟨by norm_num, le_refl 1, by simp [List.length_eq_zero.mp h]⟩
  · rw [if_neg h]
    have hn : (1 : ℚ) ≤ (issues.length : ℚ) := by
      exact_mod_cast Nat.one_le_iff_ne_zero.mpr h
    have hden1 : (1 : ℚ) ≤ max ((code.length : ℚ) / 100) 1 := le_max_right _ _
    have hdenpos : (0 : ℚ) < max ((code.length : ℚ) / 100) 1 :=
      lt_of_lt_of_le one_pos hden1
    have hd : (0 : ℚ) < (issues.length : ℚ) / max ((code.length : ℚ) / 100) 1 :=
      div_pos (lt_of_lt_of_le one_pos hn) hdenpos
    refine ⟨le_max_left _ _, ?_, ?_⟩
    · exact max_le (by norm_num) (by nlinarith)
    · constructor
      · intro heq
        exfalso
        have hlt : max (1 / 10 : ℚ)
            (1 - (issues.length : ℚ) / max ((code.length : ℚ) / 100) 1 * (1 / 10)) < 1 :=
          max_lt (by norm_num) (by nlinarith)
        rw [heq] at hlt
        exact lt_irrefl 1 hlt
      · intro he
        exact absurd (by simp [he]) h

/-- Pushing the severity filter through `map`. -/
theorem filter_sev_map {α : Type} (f : α → Severity) (l : List α) (sev : Severity) :
    ((l.map f).filter fun s => s = sev).length =
      (l.filter fun x => f x = sev).length := by
  induction l with
  | nil => rfl
  | cons x l ih =>
    simp only [List.map_cons, List.filter_cons]
    by_cases h : f x = sev <;> simp [h, ih]

/-- High-severity issues are a sub-multiset of the high-or-critical ones. -/
theorem filter_weaken_length (issues : List SecurityIssue) :
    (issues.filter fun i => i.severity = Severity.high).length ≤
      (issues.filter fun i =>
        i.severity = Severity.critical || i.severity = Severity.high).length := by
  induction issues with
  | nil => simp
  | cons x l ih =>
    simp only [List.filter_cons]
    by_cases hh : x.severity = Severity.high <;>
      by_cases hc : x.severity = Severity.critical <;>
        simp [hh, hc] <;> omega

/-- A `high` verdict from `calculateRiskLevel` forces more than two
high-or-critical issues. -/
theorem errorsCount_of_high (issues : List SecurityIssue)
    (h : calculateRiskLevel issues = RiskLevel.high) :
    2 < (issues.filter fun i =>
      i.severity = Severity.critical || i.severity = Severity.high).length := by
  unfold calculateRiskLevel at h
  by_cases h1 : (issues.filter fun i => i.severity = Severity.critical).length > 0
  · simp [h1] at h
  · rw [if_neg h1] at h
    by_cases h2 : (issues.filter fun i => i.severity = Severity.high).length > 2
    · exact lt_of_lt_of_le h2 (filter_weaken_length issues)
    · rw [if_neg h2] at h
      by_cases h3 : ((issues.filter fun i => i.severity = Severity.high).length > 0
          || (issues.filter fun i => i.severity = Severity.medium).length > 3) = true
      · rw [if_pos h3] at h
        exact absurd h (by decide)
      · rw [if_neg h3] at h
        exact absurd h (by decide)

/-! ## The claims -/

/-- C6: for every list of security issues, the computed riskLevel is
'critical' if any critical-severity issue exists; else 'high' if there are
more than 2 high-severity issues; else 'medium' if there is at least one
high-severity issue or more than 3 medium-severity issues; else 'low' — and
`getSecuritySummary` applies this same rule to the accumulated runtime
violations. -/
theorem claim6_risk_level_rule (issues : List SecurityIssue)
    (violations : List RuntimeViolation) :
    calculateRiskLevel issues = specRiskLevel (issues.map fun i => i.severity) ∧
    summaryRiskLevel violations = specRiskLevel (violations.map fun v => v.severity) ∧
    (getSecuritySummary { isEnabled := true, monitor := { freshMonitor with
      violations := violations } }).riskLevel = summaryRiskLevel violations := by
  refine ⟨?_, ?_, rfl⟩
  · unfold calculateRiskLevel specRiskLevel
    simp only [filter_sev_map]
  · unfold summaryRiskLevel specRiskLevel
    by_cases h : violations.length > 0
    · rw [if_pos h]
      simp only [filter_sev_map]
    · rw [if_neg h]
      have hnil : violations = [] := List.length_eq_zero.mp (by omega)
      subst hnil
      simp

/-- C7: for every input code, `analyze(code).confidence` lies in
`[0.1, 1.0]`, equals `1.0` iff the issue list is empty, and when issues are
present equals `max(0.1, 1.0 - 0.1 * issues.length / max(codeLength/100, 1))`. -/
theorem claim7_confidence_bound (code : List Char) :
    1 / 10 ≤ (analyze code).confidence ∧ (analyze code).confidence ≤ 1 ∧
    ((analyze code).confidence = 1 ↔ (analyze code).issues = []) ∧
    ((analyze code).issues ≠ [] →
      (analyze code).confidence =
        max (1 / 10)
          (1 - (1 / 10) * ((analyze code).issues.length : ℚ)
            / max ((code.length : ℚ) / 100) 1)) := by
  have hspec := calculateConfidence_spec (analyze code).issues code
  rw [analyze_confidence_eq]
  refine ⟨hspec.1, hspec.2.1, hspec.2.2, ?_⟩
  intro hne
  have hlen : (analyze code).issues.length ≠ 0 :=
    fun h0 => hne (List.length_eq_zero.mp h0)
  unfold calculateConfidence
  rw [if_neg hlen]
  ring_nf

/-- Witness for C7 at `eval("x")`, where the issue list is non-empty. -/
theorem claim7_confidence_bound_witness :
    (analyze ("eval(\"x\")".toList)).issues ≠ [] ∧
    (analyze ("eval(\"x\")".toList)).confidence =
      max (1 / 10)
        (1 - (1 / 10) * ((analyze ("eval(\"x\")".toList)).issues.length : ℚ)
          / max ((("eval(\"x\")".toList).length : ℚ) / 100) 1) :=
  ⟨by decide, (claim7_confidence_bound ("eval(\"x\")".toList)).2.2.2 (by decide)⟩

/-- C8: appending a substring that triggers a critical-severity rule (the
`eval` or `Function` pattern) never decreases the computed risk level under
the order low < medium < high < critical. -/
theorem claim8_risk_monotonicity (c s : List Char)
    (h : (firstMatchIdx (litParenAt ("eval".toList)) s).isSome = true ∨
         (firstMatchIdx (litParenAt ("Function".toList)) s).isSome = true) :
    riskOrd (analyze c).riskLevel ≤ riskOrd (analyze (c ++ s)).riskLevel := by
  have hc : (analyze (c ++ s)).riskLevel = RiskLevel.critical :=
    analyze_critical_of_trigger (c ++ s)
      (h.imp (firstMatchIdx_append_isSome _ c s) (firstMatchIdx_append_isSome _ c s))
  rw [hc]
  simpa [riskOrd] using riskOrd_le_three (analyze c).riskLevel

/-- Witness for C8 at `c = "x"`, `s = "eval(0)"`. -/
theorem claim8_risk_monotonicity_witness :
    ((firstMatchIdx (litParenAt ("eval".toList)) ("eval(0)".toList)).isSome = true ∨
      (firstMatchIdx (litParenAt ("Function".toList)) ("eval(0)".toList)).isSome = true) ∧
    riskOrd (analyze ("x".toList)).riskLevel ≤
      riskOrd (analyze ("x".toList ++ "eval(0)".toList)).riskLevel :=
  ⟨Or.inl (by decide),
   claim8_risk_monotonicity ("x".toList) ("eval(0)".toList) (Or.inl (by decide))⟩

/-- C10: with security enabled, `createSecureExecutionEnvironment(code)`
returns `isSafe = false` exactly when `analyze(code).riskLevel` is
'critical' or 'high' — the "more than 2 classified errors" condition is
automatic at 'high' because that level requires more than 2 high-severity
issues and each of those is classified as an error. -/
theorem claim10_secure_env_gate (sm : SecurityManagerState) (code : List Char)
    (hen : sm.isEnabled = true) :
    (createSecureExecutionEnvironment sm code).isSafe = false ↔
      ((analyze code).riskLevel = RiskLevel.critical ∨
       (analyze code).riskLevel = RiskLevel.high) := by
  have hAC : analyzeCode sm code = analyze code := by
    unfold analyzeCode
    rw [hen]
    rfl
  unfold createSecureExecutionEnvironment
  rw [hAC]
  have hrl : calculateRiskLevel (analyze code).issues = (analyze code).riskLevel := rfl
  cases hcase : (analyze code).riskLevel with
  | critical => simp [hcase]
  | high =>
    have hcount : 2 < ((analyze code).issues.filter fun i =>
        i.severity = Severity.critical || i.severity = Severity.high).length :=
      errorsCount_of_high _ (hrl.trans hcase)
    simp [hcase, List.length_map, hcount]
  | medium => simp [hcase]
  | low => simp [hcase]

/-- Witness for C10: `eval("x")` is rejected with risk level 'critical'. -/
theorem claim10_secure_env_gate_witness :
    (createSecureExecutionEnvironment enabledSecurity ("eval(\"x\")".toList)).isSafe
      = false :=
  (claim10_secure_env_gate enabledSecurity ("eval(\"x\")".toList) (by decide)).mpr
    (Or.inl (by decide))

theorem recordViolation_ok_of_not_critical (st : MonitorState) (ty : ViolationType)
    (msg : String) (sev : Severity) (now : Nat) (h : sev ≠ Severity.critical) :
    (recordViolation st ty msg sev now).2 = Except.ok () := by
  unfold recordViolation
  rw [if_neg h]

theorem recordViolation_error_of_critical (st : MonitorState) (ty : ViolationType)
    (msg : String) (now : Nat) :
    (recordViolation st ty msg Severity.critical now).2 =
      Except.error "代码执行被安全监控阻止" := by
  unfold recordViolation
  rw [if_pos rfl]
  rfl

/-- C5 counterexample: with monitoring enabled and only the stack depth over
its limit, `checkResourceLimits` does not return a boolean at all — the
critical stack-overflow violation escalates into the thrown
security-monitor-block error. -/
theorem claim5_counterexample :
    (checkResourceLimits runningMonitor 0 101 7).2 =
      Except.error "代码执行被安全监控阻止" := by rfl

/-- C5 (amended): when resource monitoring is enabled, a memory delta over
`maxMemoryUsage` yields `false` with a high-severity `memory_limit`
violation recorded; a stack depth over `maxStackDepth` records a
critical-severity `stack_overflow` violation whose critical escalation
throws the security-block error instead of returning `false`; otherwise the
call returns `true` unchanged. -/
theorem claim5_amended (st : MonitorState) (mem : Int) (stack now : Nat)
    (hen : st.config.enableResourceMonitoring = true) :
    (mem - st.memoryBaseline > (st.config.maxMemoryUsage : Int) * 1024 * 1024 →
      (checkResourceLimits st mem stack now).2 = Except.ok false ∧
      ∃ v, (checkResourceLimits st mem stack now).1.violations.getLast? = some v ∧
        v.type = ViolationType.memory_limit ∧ v.severity = Severity.high) ∧
    (¬(mem - st.memoryBaseline > (st.config.maxMemoryUsage : Int) * 1024 * 1024) →
      stack > st.config.maxStackDepth →
      (checkResourceLimits st mem stack now).2 = Except.error "代码执行被安全监控阻止" ∧
      ∃ v, (checkResourceLimits st mem stack now).1.violations.getLast? = some v ∧
        v.type = ViolationType.stack_overflow ∧ v.severity = Severity.critical) ∧
    (¬(mem - st.memoryBaseline > (st.config.maxMemoryUsage : Int) * 1024 * 1024) →
      ¬(stack > st.config.maxStackDepth) →
      checkResourceLimits st mem stack now = (st, Except.ok true)) := by
  unfold checkResourceLimits
  rw [hen]
  simp only [Bool.not_true, Bool.false_eq_true, if_false]
  refine ⟨?_, ?_, ?_⟩
  · intro hm
    rw [if_pos hm]
    cases hrec : recordViolation st ViolationType.memory_limit
        ("内存使用超出限制: " ++ toString ((mem - st.memoryBaseline) / 1024 / 1024) ++ "MB")
        Severity.high now with
    | mk st1 r =>
      have hr : r = Except.ok () := by
        have := recordViolation_ok_of_not_critical st ViolationType.memory_limit
          ("内存使用超出限制: " ++ toString ((mem - st.memoryBaseline) / 1024 / 1024) ++ "MB")
          Severity.high now (by decide)
        rw [hrec] at this
        exact this
      have hlast := recordViolation_getLast st ViolationType.memory_limit
        ("内存使用超出限制: " ++ toString ((mem - st.memoryBaseline) / 1024 / 1024) ++ "MB")
        Severity.high now
      rw [hrec] at hlast
      subst hr
      exact ⟨rfl, _, hlast, rfl, rfl⟩
  · intro hm hs
    rw [if_neg hm, if_pos hs]
    cases hrec : recordViolation st ViolationType.stack_overflow
        ("调用栈深度超出限制: " ++ toString stack) Severity.critical now with
    | mk st1 r =>
      have hr : r = Except.error "代码执行被安全监控阻止" := by
        have := recordViolation_error_of_critical st ViolationType.stack_overflow
          ("调用栈深度超出限制: " ++ toString stack) now
        rw [hrec] at this
        exact this
      have hlast := recordViolation_getLast st ViolationType.stack_overflow
        ("调用栈深度超出限制: " ++ toString stack) Severity.critical now
      rw [hrec] at hlast
      subst hr
      exact ⟨rfl, _, hlast, rfl, rfl⟩
  · intro hm hs
    rw [if_neg hm, if_neg hs]

/-- Witness for C5 (amended) at the memory-breach input. -/
theorem claim5_amended_witness :
    (checkResourceLimits runningMonitor (60 * 1024 * 1024) 5 7).2 = Except.ok false ∧
    ∃ v, (checkResourceLimits runningMonitor (60 * 1024 * 1024) 5 7).1.violations.getLast?
        = some v ∧ v.type = ViolationType.memory_limit ∧ v.severity = Severity.high :=
  (claim5_amended runningMonitor (60 * 1024 * 1024) 5 7 (by decide)).1 (by decide)

/-- C1: single-flight — a call to the JS/TS/PHP dispatcher while an
execution id is in flight rejects with the "already running" error and
changes nothing; a python `executeCode` while `isExecuting` is set appends
one system warning output and returns without touching the execution state
or posting any worker message, so no second execution (and no second pair
of terminal events) can arise from the call. -/
theorem claim1_single_flight
    (w : DispatcherWorld) (code : List Char) (config : SandboxConfig)
    (language : SimpleLanguage) (freshId : String) (now tid execTime : Nat)
    (compileResult : Except String CompileResult) (compileTime : Nat)
    (phpOutcome : PhpOutcome) (runOutcome : RunOutcome) (memSample : Int)
    (pw : PyWorld) (pcode : List Char) (pconfig : SandboxConfig)
    (pid : String) (pnow ptid : Nat) (io : InitOutcome)
    (hjs : w.manager.executionId.isSome = true)
    (hpy : pw.py.isExecuting = true) :
    executeCode w code config language freshId now tid execTime compileResult
        compileTime phpOutcome runOutcome memSample
      = (w, Except.error "已有代码正在执行中") ∧
    (pythonExecuteCode pw pcode pconfig pid pnow ptid io).2 = Except.ok () ∧
    (pythonExecuteCode pw pcode pconfig pid pnow ptid io).1.py = pw.py ∧
    (pythonExecuteCode pw pcode pconfig pid pnow ptid io).1.posted = pw.posted ∧
    (pythonExecuteCode pw pcode pconfig pid pnow ptid io).1.store.executionState
      = pw.store.executionState ∧
    (pythonExecuteCode pw pcode pconfig pid pnow ptid io).1.store.outputs
      = pw.store.outputs ++
        [{ type := OutputKind.warn, message := "Python 代码正在执行中，请等待完成后再试",
           source := OutputSource.system }] := by
  constructor
  · unfold executeCode
    rw [if_pos hjs]
  · simp [pythonExecuteCode, hpy, pyAddOutput, addOutput]

/-- Witness for C1 at concrete busy states. -/
theorem claim1_single_flight_witness :
    executeCode busyWorld [] sandboxConfig10s SimpleLanguage.javascript "id1" 5 1 3
        (Except.ok { success := true, code := none, errors := [], warnings := [] }) 0
        (PhpOutcome.ok []) (RunOutcome.ok []) 0
      = (busyWorld, Except.error "已有代码正在执行中") ∧
    (pythonExecuteCode pyBusyWorld [] sandboxConfig10s "p1" 5 1 InitOutcome.ready).1.posted
      = pyBusyWorld.posted :=
  ⟨(claim1_single_flight busyWorld [] sandboxConfig10s SimpleLanguage.javascript "id1"
      5 1 3 (Except.ok { success := true, code := none, errors := [], warnings := [] }) 0
      (PhpOutcome.ok []) (RunOutcome.ok []) 0 pyBusyWorld [] sandboxConfig10s "p1" 5 1
      InitOutcome.ready (by decide) (by decide)).1,
   (claim1_single_flight busyWorld [] sandboxConfig10s SimpleLanguage.javascript "id1"
      5 1 3 (Except.ok { success := true, code := none, errors := [], warnings := [] }) 0
      (PhpOutcome.ok []) (RunOutcome.ok []) 0 pyBusyWorld [] sandboxConfig10s "p1" 5 1
      InitOutcome.ready (by decide) (by decide)).2.2.2.1⟩

/-- C9: `stopExecution` is idempotent on both managers: it never throws (it
is a total function of the state in this embedding), afterwards
`getStatus().isRunning` is `false` with the execution id cleared, and a
second consecutive call is a no-op. -/
theorem claim9_idempotent_stop (w : DispatcherWorld) (now : Nat) (pw : PyWorld) :
    (simpleStopExecution w now).manager.executionId = none ∧
    (simpleGetStatus (simpleStopExecution w now).manager).isRunning = false ∧
    simpleStopExecution (simpleStopExecution w now) now = simpleStopExecution w now ∧
    (pyStopExecution pw).py.executionId = none ∧
    (pyGetStatus (pyStopExecution pw).py).isRunning = false ∧
    pyStopExecution (pyStopExecution pw) = pyStopExecution pw := by
  cases hw : w.manager.executionId <;> cases hp : pw.py.executionId <;>
    simp [simpleStopExecution, pyStopExecution, simpleGetStatus, pyGetStatus,
      pyTerminateWorker, pyCleanupExecution, pyAddOutput, addOutput, hw, hp]

/-- C2 counterexample: a successful javascript execution of `1 + 1` (safe
code that prints nothing) resolves normally yet leaves the output stream
empty — no system "completed" event, no Output Event at all. -/
theorem claim2_counterexample :
    (executeCode idleWorld ("1 + 1".toList) sandboxConfig10s SimpleLanguage.javascript
        "id1" 5 1 3 (Except.ok { success := true, code := none, errors := [], warnings := [] })
        0 (PhpOutcome.ok []) (RunOutcome.ok []) 0).1.store.outputs = [] ∧
    (executeCode idleWorld ("1 + 1".toList) sandboxConfig10s SimpleLanguage.javascript
        "id1" 5 1 3 (Except.ok { success := true, code := none, errors := [], warnings := [] })
        0 (PhpOutcome.ok []) (RunOutcome.ok []) 0).2 = Except.ok () :=
  ⟨by decide, by rfl⟩

/-- C2 (amended): the python path does guarantee at least one Output Event
per `executeCode` call — whichever branch runs (concurrency warning,
initialization failure, empty-code or quote rejection, or the normal
dispatch), the output stream is non-empty afterwards. -/
theorem claim2_amended (w : PyWorld) (code : List Char) (config : SandboxConfig)
    (freshId : String) (now tid : Nat) (io : InitOutcome) :
    0 < (pythonExecuteCode w code config freshId now tid io).1.store.outputs.length := by
  unfold pythonExecuteCode
  by_cases hex : w.py.isExecuting
  · simp [hex, pyAddOutput, addOutput]
  · rw [if_neg hex]
    simp only []
    split
    · simp [pyCleanupExecution, pyAddOutput, addOutput]
    · split
      · simp [pyCleanupExecution, pyAddOutput, addOutput, clearOutputs]
      · split
        · simp [pyCleanupExecution, pyAddOutput, addOutput, clearOutputs]
        · simp [pyAddOutput, addOutput, clearOutputs]

/-- C3 counterexample: `executeCode("", config)` on the python manager does
NOT reach the backend placeholder — it posts no message to the worker and
rejects the empty code with an error Output Event. -/
theorem claim3_counterexample :
    (pythonExecuteCode pyReadyWorld [] sandboxConfig10s "py1" 5 1
        InitOutcome.ready).1.posted = [] ∧
    (pythonExecuteCode pyReadyWorld [] sandboxConfig10s "py1" 5 1
        InitOutcome.ready).1.store.outputs
      = [{ type := OutputKind.error, message := "Python代码不能为空",
           source := OutputSource.error }] :=
  ⟨by decide, by decide⟩

/-- C3 (amended): the WORKER does trim the submitted code and substitutes
the non-empty `"# Python代码\n"` placeholder when the trimmed code is empty
— but the manager-side `executeCode` rejects empty code with an error
before any `EXECUTE` message reaches the worker, so
`executeCode("", config)` never exercises the placeholder. -/
theorem claim3_amended (ws : WorkerState) (eid : String) (code : List Char)
    (outcome : PyRunOutcome) (w : PyWorld) (config : SandboxConfig)
    (freshId : String) (now tid : Nat) (io : InitOutcome)
    (hready : ws.isReady = true)
    (hmgr : w.py.isExecuting = false) (hinit : w.py.isInitialized = true)
    (hid : w.py.executionId = none) (hempty : (jsTrim code).isEmpty = true) :
    (workerExecuteCode ws eid code outcome).1
      = some (if (jsTrim code).isEmpty then pythonPlaceholder else jsTrim code) ∧
    pythonPlaceholder.isEmpty = false ∧
    (pythonExecuteCode w code config freshId now tid io).1.posted = w.posted ∧
    (pythonExecuteCode w code config freshId now tid io).1.store.outputs
      = [{ type := OutputKind.error, message := "Python代码不能为空",
           source := OutputSource.error }] := by
  refine ⟨?_, by decide, ?_⟩
  · cases outcome <;> cases hterm : ws.terminated <;>
      simp [workerExecuteCode, hready, hterm]
  · have hguard : ¬(w.py.isExecuting = true) := by simp [hmgr]
    unfold pythonExecuteCode
    rw [if_neg hguard]
    simp [pyStopExecution, hid, hinit, hempty, pyCleanupExecution, pyAddOutput,
      addOutput, clearOutputs]

/-- Witness for C3 (amended) at whitespace-only code. -/
theorem claim3_amended_witness :
    (workerExecuteCode { isReady := true, terminated := false } "e1" ("   ".toList)
        (PyRunOutcome.value none)).1
      = some (if (jsTrim ("   ".toList)).isEmpty then pythonPlaceholder
              else jsTrim ("   ".toList)) ∧
    pythonPlaceholder.isEmpty = false ∧
    (pythonExecuteCode pyReadyWorld ("   ".toList) sandboxConfig10s "py1" 5 1
        InitOutcome.ready).1.posted = pyReadyWorld.posted ∧
    (pythonExecuteCode pyReadyWorld ("   ".toList) sandboxConfig10s "py1" 5 1
        InitOutcome.ready).1.store.outputs
      = [{ type := OutputKind.error, message := "Python代码不能为空",
           source := OutputSource.error }] :=
  claim3_amended { isReady := true, terminated := false } "e1" ("   ".toList)
    (PyRunOutcome.value none) pyReadyWorld sandboxConfig10s "py1" 5 1 InitOutcome.ready
    (by decide) (by decide) (by decide) (by decide) (by decide)

/-- C4 counterexample: a backend ERROR message whose `executionId` differs
from the tracked one still appends an error Output Event to the current
output stream (it is not fully ignored). -/
theorem claim4_counterexample :
    (handleWorkerMessage pyRunningWorld
        (PyWorkerOutMsg.error (some "b") "boom")).store.outputs
      = pyRunningWorld.store.outputs ++
        [{ type := OutputKind.error, message := "Python 执行错误: boom",
           source := OutputSource.error }] ∧
    (handleWorkerMessage pyRunningWorld
        (PyWorkerOutMsg.error (some "b") "boom")).store.outputs
      ≠ pyRunningWorld.store.outputs :=
  ⟨by decide, by decide⟩

/-- C4 (amended): an ERROR message with a mismatched (non-null)
`executionId` leaves the manager state, the posted-message log and the
store's Execution State unchanged, but still appends one error Output
Event; RESULT and COMPLETE messages with mismatched ids are ignored
entirely. -/
theorem claim4_amended (w : PyWorld) (cur e err res : String)
    (hcur : w.py.executionId = some cur) (hne : e ≠ cur) :
    (handleWorkerMessage w (PyWorkerOutMsg.error (some e) err)).py = w.py ∧
    (handleWorkerMessage w (PyWorkerOutMsg.error (some e) err)).store.executionState
      = w.store.executionState ∧
    (handleWorkerMessage w (PyWorkerOutMsg.error (some e) err)).posted = w.posted ∧
    (handleWorkerMessage w (PyWorkerOutMsg.error (some e) err)).store.outputs
      = w.store.outputs ++
        [{ type := OutputKind.error, message := "Python 执行错误: " ++ err,
           source := OutputSource.error }] ∧
    handleWorkerMessage w (PyWorkerOutMsg.result e res) = w ∧
    handleWorkerMessage w (PyWorkerOutMsg.complete e) = w := by
  have hne2 : ¬w.py.executionId = some e := by
    rw [hcur]
    simp
    exact fun heq => hne heq.symm
  simp [handleWorkerMessage, pyAddOutput, addOutput, hne2]

/-- Witness for C4 (amended) at a concrete running state. -/
theorem claim4_amended_witness :
    (handleWorkerMessage pyRunningWorld (PyWorkerOutMsg.error (some "b") "x")).py
      = pyRunningWorld.py ∧
    handleWorkerMessage pyRunningWorld (PyWorkerOutMsg.result "b" "r") = pyRunningWorld :=
  ⟨(claim4_amended pyRunningWorld "a" "b" "x" "r" (by decide) (by decide)).1,
   (claim4_amended pyRunningWorld "a" "b" "x" "r" (by decide) (by decide)).2.2.2.2.1⟩

end CodeRunner
